import Mathlib

/-!
Verification of the okx-data-dump pipeline (`src/okx_dump/dump.py`).

The development shallowly embeds the parts of `DataDumper` that the
specification describes:

* `generate_url` — the location resolver;
* `_async_download_symbol_data` together with its `tenacity.retry`
  decorator — the retrying fetcher, cache guard and converter.  File
  effects are modelled at two granularities: a path-set filesystem for
  the retry state machine, and a chunk-level filesystem (`runOps`) for
  the write-atomicity question;
* `_aggregate_symbol_kline` — the candle aggregator, with the pandas
  `resample("1min")` / gap-fill pipeline embedded over exact rationals;
* `_dump_symbol_data` — date-range clipping and work-unit enumeration,
  with calendar dates abstracted as integer day numbers;
* `get_exchange_info` — the catalog mapping, with the ISO timestamps of
  the catalog response abstracted as already-parsed day numbers.
-/

/-! ## Python string helpers

`strReplace s pat rep` is Python's `s.replace(pat, rep)` (leftmost,
non-overlapping, all occurrences).  It is written with explicit fuel so
that it evaluates by kernel reduction. -/

def replaceAux (pat rep : List Char) : Nat → List Char → List Char
  | 0, l => l
  | _, [] => []
  | fuel + 1, c :: cs =>
    if pat ≠ [] ∧ (c :: cs).take pat.length = pat then
      rep ++ replaceAux pat rep fuel ((c :: cs).drop pat.length)
    else c :: replaceAux pat rep fuel cs

def strReplace (s pat rep : String) : String :=
  String.mk (replaceAux pat.data rep.data s.data.length s.data)

/-! ## Location resolver: `DataDumper.generate_url`

A calendar date is kept symbolic as a (year, month, day) triple; the
`strftime` format codes used by the source are embedded directly. -/

structure DateT where
  year : Nat
  month : Nat
  day : Nat
deriving DecidableEq

/-- `strftime` two-digit zero padding (`%m`, `%d`). -/
def pad2 (n : Nat) : String := if n < 10 then "0" ++ toString n else toString n

/-- `date.strftime("%Y-%m-%d")` (years of interest are four-digit). -/
def fmtYmd (d : DateT) : String :=
  toString d.year ++ "-" ++ pad2 d.month ++ "-" ++ pad2 d.day

/-- `date.strftime("%Y%m")`. -/
def fmtYm (d : DateT) : String := toString d.year ++ pad2 d.month

/-- `date.strftime("%Y%m%d")`. -/
def fmtYmdCompact (d : DateT) : String :=
  toString d.year ++ pad2 d.month ++ pad2 d.day

/-- The dict returned by `generate_url`. -/
structure UrlResult where
  url : String
  file_name : String
  date : String
deriving DecidableEq

/-- `DataDumper.generate_url`, translated clause by clause from
`src/okx_dump/dump.py` lines 145-165.  Note that the source only
branches on `data_type == "swaprate-all"`: every other string, valid or
not, is formatted through the daily template. -/
def generate_url (symbol data_type : String) (date : DateT) : UrlResult :=
  if data_type = "swaprate-all" then
    let base_url := "https://www.okx.com/cdn/okex/traderecords/swaprate/monthly"
    let date_str := fmtYm date
    let file_name := symbol ++ "-swaprate-" ++ fmtYmd date ++ ".zip"
    { url := base_url ++ "/" ++ date_str ++ "/" ++ file_name
      file_name := file_name
      date := fmtYmd date }
  else
    let base_url := "https://www.okx.com/cdn/okex/traderecords/" ++ data_type ++ "/daily"
    let date_str := fmtYmdCompact date
    let file_name := symbol ++ "-" ++ data_type ++ "-" ++ fmtYmd date ++ ".zip"
    { url := base_url ++ "/" ++ date_str ++ "/" ++ file_name
      file_name := file_name
      date := fmtYmd date }

/-- The `Literal` annotation of `generate_url`'s `data_type` parameter. -/
def validDataKinds : List String := ["aggtrades", "trades", "swaprate", "swaprate-all"]

/-- Claim C8, counterexample: `"bogus"` is outside the closed enumeration of
data-kinds, yet the resolver returns a concrete remote address for it
instead of failing: there is no `InvalidDataKind` error anywhere in the
source. -/
theorem c8_counterexample :
    "bogus" ∉ validDataKinds ∧
    generate_url "BTC-USDT" "bogus" ⟨2024, 1, 2⟩ =
      { url := "https://www.okx.com/cdn/okex/traderecords/bogus/daily/20240102/BTC-USDT-bogus-2024-01-02.zip"
        file_name := "BTC-USDT-bogus-2024-01-02.zip"
        date := "2024-01-02" } :=
  ⟨by decide, by decide⟩

/-- Claim C8 (amended): the location resolver is total over all data-kind
strings.  Every kind other than `"swaprate-all"` — including kinds outside
the valid enumeration — is routed through the daily URL template and an
address is returned; no `InvalidDataKind` failure exists. -/
theorem c8_resolver_total (symbol data_type : String) (date : DateT)
    (h : data_type ≠ "swaprate-all") :
    generate_url symbol data_type date =
      { url := ("https://www.okx.com/cdn/okex/traderecords/" ++ data_type ++ "/daily") ++ "/"
                 ++ fmtYmdCompact date ++ "/"
                 ++ (symbol ++ "-" ++ data_type ++ "-" ++ fmtYmd date ++ ".zip")
        file_name := symbol ++ "-" ++ data_type ++ "-" ++ fmtYmd date ++ ".zip"
        date := fmtYmd date } := by
  simp [generate_url, h]

/-- Witness for `c8_resolver_total` at a concrete valid input. -/
theorem c8_resolver_total_witness :
    generate_url "BTC-USDT" "trades" ⟨2024, 1, 2⟩ =
      { url := ("https://www.okx.com/cdn/okex/traderecords/" ++ "trades" ++ "/daily") ++ "/"
                 ++ fmtYmdCompact ⟨2024, 1, 2⟩ ++ "/"
                 ++ ("BTC-USDT" ++ "-" ++ "trades" ++ "-" ++ fmtYmd ⟨2024, 1, 2⟩ ++ ".zip")
        file_name := "BTC-USDT" ++ "-" ++ "trades" ++ "-" ++ fmtYmd ⟨2024, 1, 2⟩ ++ ".zip"
        date := fmtYmd ⟨2024, 1, 2⟩ } :=
  c8_resolver_total "BTC-USDT" "trades" ⟨2024, 1, 2⟩ (by decide)

/-! ## Retrying fetcher: `_async_download_symbol_data` under `tenacity.retry`

The retry state machine is modelled with per-attempt HTTP statuses given
as a function of tenacity's 1-based attempt number.  The filesystem is
abstracted, for this part, to the set of paths that exist (the
chunk-level content model appears further below for the atomicity
question).  `aiohttp`'s `raise_for_status` raises exactly for statuses
`>= 400`; the handler then branches on 404, on the retryable list
(re-raising `tenacity.TryAgain`), and re-raises anything else.  The
decorator is `tenacity.retry(stop=stop_after_attempt(5),
wait=wait_exponential(exp_base=2, multiplier=4, max=64))`; its *default*
retry predicate retries on any raised exception. -/

/-- Errors that can escape one attempt of the decorated body. -/
inductive FetchErr where
  | tryAgain
  | clientResponseError (status : Nat)
deriving DecidableEq

/-- The result surfaced by the tenacity wrapper: either the body's return
value (`None` ↝ `Option.none` for a 404, otherwise the parquet path), or
tenacity's `RetryError` wrapping the failure of the last attempt. -/
inductive DownloadOutcome where
  | ok (result : Option String)
  | retryError (last : FetchErr)
deriving DecidableEq

deriving instance DecidableEq for Except

/-- State produced by one attempt of the body: its value or raised error,
the filesystem afterwards, how many HTTP requests it made, and which
paths it wrote. -/
structure AttemptResult where
  value : Except FetchErr (Option String)
  fs : List String
  requests : Nat
  writes : List String
deriving DecidableEq

/-- Aggregate observation of a whole decorated call. -/
structure RunResult where
  outcome : DownloadOutcome
  fs : List String
  requests : Nat
  attempts : Nat
  writes : List String
  waits : List Nat
deriving DecidableEq

/-- `tenacity.wait_exponential(multiplier, max, exp_base)` evaluated at a
1-based attempt number:
`min(multiplier * exp_base ** (attempt_number - 1), max)` (the `min`
floor of the source is its default 0).  For `(4, 64, 2)` the sleeps
after attempts 1..4 are `4, 8, 16, 32`: the ceiling 64 is never reached
within five attempts. -/
def tenacityWait (multiplier expBase maxWait attemptNumber : Nat) : Nat :=
  min (multiplier * expBase ^ (attemptNumber - 1)) maxWait

/-- HTTP statuses the source re-raises as `tenacity.TryAgain`
(`dump.py` line 195). -/
def retryStatuses : List Nat := [500, 502, 503, 504, 429, 408]

/-- `os.path.join(self.save_dir, data_type, res["date"], res["file_name"])`. -/
def zipPathOf (saveDir symbol dataType : String) (date : DateT) : String :=
  saveDir ++ "/" ++ dataType ++ "/" ++ (generate_url symbol dataType date).date
    ++ "/" ++ (generate_url symbol dataType date).file_name

/-- `zip_path.replace(".zip", ".parquet")`. -/
def parquetPathOf (saveDir symbol dataType : String) (date : DateT) : String :=
  strReplace (zipPathOf saveDir symbol dataType date) ".zip" ".parquet"

/-- One attempt of `_async_download_symbol_data` (dump.py lines 171-263):
cache-guard existence check before any network access, then the HTTP GET
classified by status; on a 2xx/3xx response the zip is streamed to disk,
converted to parquet at the final path and the zip removed, so at path
granularity the attempt adds exactly the parquet path. -/
def asyncDownloadAttempt (saveDir symbol dataType : String) (date : DateT)
    (status : Nat) (fs : List String) : AttemptResult :=
  if fs.contains (parquetPathOf saveDir symbol dataType date) then
    { value := Except.ok (some (parquetPathOf saveDir symbol dataType date))
      fs := fs, requests := 0, writes := [] }
  else if status = 404 then
    { value := Except.ok none, fs := fs, requests := 1, writes := [] }
  else if status ∈ retryStatuses then
    { value := Except.error FetchErr.tryAgain, fs := fs, requests := 1, writes := [] }
  else if 400 ≤ status then
    { value := Except.error (FetchErr.clientResponseError status)
      fs := fs, requests := 1, writes := [] }
  else
    { value := Except.ok (some (parquetPathOf saveDir symbol dataType date))
      fs := parquetPathOf saveDir symbol dataType date :: fs
      requests := 1
      writes := [zipPathOf saveDir symbol dataType date,
                 parquetPathOf saveDir symbol dataType date] }

/-- The tenacity loop under `stop=stop_after_attempt(5)`: the list argument
enumerates the remaining attempt numbers (initially `[1, 2, 3, 4, 5]`).
A successful body returns its value; a raised error on the last allowed
attempt surfaces as `RetryError` wrapping that error (`reraise` is left at
its default `False`); otherwise the loop sleeps `wait_exponential` for the
attempt just failed and tries again.  The `[]` base case is unreachable
from a positive stop bound. -/
def runAttempts (body : Nat → List String → AttemptResult) :
    List Nat → List String → RunResult
  | [], fs =>
    { outcome := DownloadOutcome.retryError FetchErr.tryAgain, fs := fs
      requests := 0, attempts := 0, writes := [], waits := [] }
  | [n], fs =>
    let r := body n fs
    match r.value with
    | Except.ok v =>
      { outcome := DownloadOutcome.ok v, fs := r.fs, requests := r.requests
        attempts := 1, writes := r.writes, waits := [] }
    | Except.error e =>
      { outcome := DownloadOutcome.retryError e, fs := r.fs, requests := r.requests
        attempts := 1, writes := r.writes, waits := [] }
  | n :: m :: rest, fs =>
    let r := body n fs
    match r.value with
    | Except.ok v =>
      { outcome := DownloadOutcome.ok v, fs := r.fs, requests := r.requests
        attempts := 1, writes := r.writes, waits := [] }
    | Except.error _ =>
      let restR := runAttempts body (m :: rest) r.fs
      { outcome := restR.outcome, fs := restR.fs
        requests := r.requests + restR.requests
        attempts := 1 + restR.attempts
        writes := r.writes ++ restR.writes
        waits := tenacityWait 4 2 64 n :: restR.waits }

/-- The decorated `_async_download_symbol_data` as observed by a caller. -/
def asyncDownloadSymbolData (saveDir symbol dataType : String) (date : DateT)
    (statuses : Nat → Nat) (fs : List String) : RunResult :=
  runAttempts
    (fun n fs' => asyncDownloadAttempt saveDir symbol dataType date (statuses n) fs')
    [1, 2, 3, 4, 5] fs

/-- Claim C3: when the converted artifact already exists at its canonical
path, re-invoking the download performs zero network requests and zero
filesystem writes, leaves the filesystem unchanged, and returns that
path. -/
theorem c3_cache_short_circuit (saveDir symbol dataType : String) (date : DateT)
    (statuses : Nat → Nat) (fs : List String)
    (hfs : parquetPathOf saveDir symbol dataType date ∈ fs) :
    asyncDownloadSymbolData saveDir symbol dataType date statuses fs =
      { outcome := DownloadOutcome.ok (some (parquetPathOf saveDir symbol dataType date))
        fs := fs, requests := 0, attempts := 1, writes := [], waits := [] } := by
  simp [asyncDownloadSymbolData, runAttempts, asyncDownloadAttempt, hfs]

/-- Witness for `c3_cache_short_circuit` on a concrete filesystem already
holding the artifact. -/
theorem c3_cache_short_circuit_witness :
    asyncDownloadSymbolData "./data/spot" "BTC-USDT" "trades" ⟨2024, 1, 2⟩
        (fun _ => 200) [parquetPathOf "./data/spot" "BTC-USDT" "trades" ⟨2024, 1, 2⟩] =
      { outcome := DownloadOutcome.ok
          (some (parquetPathOf "./data/spot" "BTC-USDT" "trades" ⟨2024, 1, 2⟩))
        fs := [parquetPathOf "./data/spot" "BTC-USDT" "trades" ⟨2024, 1, 2⟩]
        requests := 0, attempts := 1, writes := [], waits := [] } :=
  c3_cache_short_circuit "./data/spot" "BTC-USDT" "trades" ⟨2024, 1, 2⟩
    (fun _ => 200) _ (by decide)

/-- Claim C2, counterexample: HTTP 403 is neither 404 nor in the retryable
set, yet the call is *not* propagated after the first attempt: the
decorator's default predicate retries any raised exception, so five
attempts are made before a `RetryError` surfaces. -/
theorem c2_counterexample :
    (asyncDownloadSymbolData "./data/spot" "BTC-USDT" "trades" ⟨2024, 1, 2⟩
        (fun _ => 403) []).attempts = 5 ∧
    (asyncDownloadSymbolData "./data/spot" "BTC-USDT" "trades" ⟨2024, 1, 2⟩
        (fun _ => 403) []).outcome =
      DownloadOutcome.retryError (FetchErr.clientResponseError 403) :=
  ⟨by decide, by decide⟩

/-- Claim C2 (amended): for a fetch whose status is neither 404 nor in the
retryable set (and is an error status, `>= 400`), the body re-raises the
`ClientResponseError`, but the tenacity decorator's default retry
predicate retries any exception: five attempts are made (one request
each) and the failure then surfaces as `RetryError` wrapping the last
`ClientResponseError` — it is not propagated after the first attempt. -/
theorem c2_fatal_status_retried (saveDir symbol dataType : String) (date : DateT)
    (statuses : Nat → Nat) (s : Nat) (fs : List String)
    (hfs : parquetPathOf saveDir symbol dataType date ∉ fs)
    (hs : ∀ n, statuses n = s)
    (h400 : 400 ≤ s) (h404 : s ≠ 404) (hmem : s ∉ retryStatuses) :
    asyncDownloadSymbolData saveDir symbol dataType date statuses fs =
      { outcome := DownloadOutcome.retryError (FetchErr.clientResponseError s)
        fs := fs, requests := 5, attempts := 5, writes := []
        waits := [4, 8, 16, 32] } := by
  have hbody : ∀ n, asyncDownloadAttempt saveDir symbol dataType date (statuses n) fs =
      { value := Except.error (FetchErr.clientResponseError s)
        fs := fs, requests := 1, writes := [] } := by
    intro n
    rw [hs n]
    simp [asyncDownloadAttempt, hfs, h400, h404, hmem]
  simp [asyncDownloadSymbolData, runAttempts, hbody, tenacityWait]

/-- Witness for `c2_fatal_status_retried` at status 418. -/
theorem c2_fatal_status_retried_witness :
    asyncDownloadSymbolData "./data/swap" "ETH-USDT-SWAP" "swaprate" ⟨2024, 3, 5⟩
        (fun _ => 418) [] =
      { outcome := DownloadOutcome.retryError (FetchErr.clientResponseError 418)
        fs := [], requests := 5, attempts := 5, writes := []
        waits := [4, 8, 16, 32] } :=
  c2_fatal_status_retried "./data/swap" "ETH-USDT-SWAP" "swaprate" ⟨2024, 3, 5⟩
    (fun _ => 418) 418 [] (by decide) (fun _ => rfl) (by decide) (by decide) (by decide)

/-- Claim C4: when every attempt hits a retryable status, the fetcher makes
exactly 5 attempts, fails with `RetryError` wrapping the error raised by
the last attempt (the `TryAgain` signal the body converts retryable
statuses into), and the backoff delays slept between successive attempts
— `wait_exponential(exp_base=2, multiplier=4, max=64)` at attempt numbers
1..4, i.e. `[4, 8, 16, 32]` — are non-decreasing and bounded by the
configured ceiling 64 (which these parameters never actually reach
within the five-attempt budget). -/
theorem c4_retry_exhaustion (saveDir symbol dataType : String) (date : DateT)
    (statuses : Nat → Nat) (fs : List String)
    (hfs : parquetPathOf saveDir symbol dataType date ∉ fs)
    (hstat : ∀ n, statuses n ∈ retryStatuses) :
    (asyncDownloadSymbolData saveDir symbol dataType date statuses fs).attempts = 5 ∧
    (asyncDownloadSymbolData saveDir symbol dataType date statuses fs).outcome =
      DownloadOutcome.retryError FetchErr.tryAgain ∧
    (asyncDownloadSymbolData saveDir symbol dataType date statuses fs).waits =
      [4, 8, 16, 32] ∧
    List.Chain' (fun a b => a ≤ b)
      (asyncDownloadSymbolData saveDir symbol dataType date statuses fs).waits ∧
    (∀ w ∈ (asyncDownloadSymbolData saveDir symbol dataType date statuses fs).waits,
      w ≤ 64) := by
  have h404 : ∀ n, statuses n ≠ 404 := by
    intro n hn
    have h := hstat n
    rw [hn] at h
    simp [retryStatuses] at h
  have hbody : ∀ n, asyncDownloadAttempt saveDir symbol dataType date (statuses n) fs =
      { value := Except.error FetchErr.tryAgain, fs := fs, requests := 1, writes := [] } := by
    intro n
    simp [asyncDownloadAttempt, hfs, h404 n, hstat n]
  have hrun : asyncDownloadSymbolData saveDir symbol dataType date statuses fs =
      { outcome := DownloadOutcome.retryError FetchErr.tryAgain
        fs := fs, requests := 5, attempts := 5, writes := []
        waits := [4, 8, 16, 32] } := by
    simp [asyncDownloadSymbolData, runAttempts, hbody, tenacityWait]
  have hw : (asyncDownloadSymbolData saveDir symbol dataType date statuses fs).waits =
      [4, 8, 16, 32] := by rw [hrun]
  refine ⟨by rw [hrun], by rw [hrun], hw, ?_, ?_⟩
  · rw [hw]
    refine List.chain'_cons.mpr ⟨by norm_num, List.chain'_cons.mpr ⟨by norm_num,
      List.chain'_cons.mpr ⟨by norm_num, List.chain'_singleton 32⟩⟩⟩
  · rw [hw]; decide

/-- Witness for `c4_retry_exhaustion`: every attempt answers 503. -/
theorem c4_retry_exhaustion_witness :
    (asyncDownloadSymbolData "./data/spot" "BTC-USDT" "aggtrades" ⟨2024, 1, 2⟩
        (fun _ => 503) []).attempts = 5 ∧
    (asyncDownloadSymbolData "./data/spot" "BTC-USDT" "aggtrades" ⟨2024, 1, 2⟩
        (fun _ => 503) []).outcome = DownloadOutcome.retryError FetchErr.tryAgain ∧
    (asyncDownloadSymbolData "./data/spot" "BTC-USDT" "aggtrades" ⟨2024, 1, 2⟩
        (fun _ => 503) []).waits = [4, 8, 16, 32] ∧
    List.Chain' (fun a b => a ≤ b)
      (asyncDownloadSymbolData "./data/spot" "BTC-USDT" "aggtrades" ⟨2024, 1, 2⟩
        (fun _ => 503) []).waits ∧
    (∀ w ∈ (asyncDownloadSymbolData "./data/spot" "BTC-USDT" "aggtrades" ⟨2024, 1, 2⟩
        (fun _ => 503) []).waits, w ≤ 64) :=
  c4_retry_exhaustion "./data/spot" "BTC-USDT" "aggtrades" ⟨2024, 1, 2⟩
    (fun _ => 503) [] (by decide) (fun _ => by simp [retryStatuses])

/-! ## Candle aggregator: `_aggregate_symbol_kline`

The pandas pipeline (dump.py lines 278-297) is embedded over exact
rationals:

* `df.resample("1min")` partitions the trade rows into one bucket per
  minute, spanning from the minute of the smallest timestamp in the
  index to the minute of the largest — not the whole day;
* `agg({"price": ["first","max","min","last"], "size": "sum"})` gives
  per-bucket OHLC as `Option ℚ` (`none` is pandas `NaN`, produced for an
  empty bucket) and volume as a plain sum (pandas' sum of an empty group
  is `0`, not `NaN`);
* the gap-fill `ohlcv.loc[mask, [...]] = ohlcv["close"].shift(1)`
  assigns, in one vectorised step, each zero-volume row the close of the
  row *above it in the pre-assignment frame* (so a run of consecutive
  empty buckets is not forward-filled);
* `ohlcv["volume"].fillna(0)` keeps volumes total. -/

/-- One row of the aggregated-trade artifact (after conversion the rows
carry a millisecond timestamp, price and size). -/
structure Trade where
  ts : Nat
  price : ℚ
  size : ℚ
deriving DecidableEq

/-- One row of the resampled OHLCV frame. -/
structure OhlcvRow where
  minute : Nat
  opn : Option ℚ
  high : Option ℚ
  low : Option ℚ
  close : Option ℚ
  volume : ℚ
deriving DecidableEq

/-- Truncating a trade's millisecond timestamp to its minute bucket. -/
def minuteOf (t : Trade) : Nat := t.ts / 60000

/-- The trades falling in minute bucket `m`, in artifact row order. -/
def bucketTrades (trades : List Trade) (m : Nat) : List Trade :=
  trades.filter (fun t => minuteOf t == m)

/-- One bucket of `resample("1min").agg(...)`: first/max/min/last of the
prices and the sum of the sizes (`none` for the OHLC of an empty bucket,
`0` for its volume). -/
def rawBucket (trades : List Trade) (m : Nat) : OhlcvRow :=
  { minute := m
    opn := ((bucketTrades trades m).map (fun t => t.price)).head?
    high := ((bucketTrades trades m).map (fun t => t.price)).max?
    low := ((bucketTrades trades m).map (fun t => t.price)).min?
    close := ((bucketTrades trades m).map (fun t => t.price)).getLast?
    volume := ((bucketTrades trades m).map (fun t => t.size)).sum }

/-- The minute bins generated by `resample("1min")`: every minute from the
smallest to the largest minute occurring in the index, inclusive. -/
def resampleMinutes (trades : List Trade) : List Nat :=
  match (trades.map minuteOf).min?, (trades.map minuteOf).max? with
  | some a, some b => (List.range (b - a + 1)).map (fun i => a + i)
  | _, _ => []

/-- The resampled frame before gap-filling. -/
def okxRawRows (trades : List Trade) : List OhlcvRow :=
  (resampleMinutes trades).map (rawBucket trades)

/-- `ohlcv["close"].shift(1)` at row `i` of the pre-assignment frame. -/
def prevRawClose (rows : List OhlcvRow) (i : Nat) : Option ℚ :=
  if i = 0 then none else (rows[i - 1]?).bind (fun r => r.close)

/-- The vectorised masked assignment applied to row `i`: a zero-volume row
gets the shifted close for all four OHLC fields (and its volume, already
`0`, is kept by `fillna(0)`); any other row is unchanged. -/
def fillRow (rows : List OhlcvRow) (i : Nat) (r : OhlcvRow) : OhlcvRow :=
  if r.volume = 0 then
    { minute := r.minute
      opn := prevRawClose rows i
      high := prevRawClose rows i
      low := prevRawClose rows i
      close := prevRawClose rows i
      volume := 0 }
  else r

/-- `gapFillFrom rows i l` maps `fillRow rows` over `l` with indices
starting at `i`; the shift always reads the full pre-assignment frame
`rows`. -/
def gapFillFrom (rows : List OhlcvRow) : Nat → List OhlcvRow → List OhlcvRow
  | _, [] => []
  | i, r :: rest => fillRow rows i r :: gapFillFrom rows (i + 1) rest

/-- The gap-filled frame. -/
def gapFill (rows : List OhlcvRow) : List OhlcvRow := gapFillFrom rows 0 rows

/-- The full kline derivation of `_aggregate_symbol_kline` from the rows of
the aggregated-trade artifact. -/
def okxKline (trades : List Trade) : List OhlcvRow :=
  gapFill (okxRawRows trades)

theorem gapFillFrom_getElem? (rows : List OhlcvRow) (l : List OhlcvRow) :
    ∀ i j : Nat, (gapFillFrom rows i l)[j]? = (l[j]?).map (fillRow rows (i + j)) := by
  induction l with
  | nil => intro i j; simp [gapFillFrom]
  | cons r rest ih =>
    intro i j
    cases j with
    | zero => simp [gapFillFrom]
    | succ j =>
      simp only [gapFillFrom, List.getElem?_cons_succ, ih (i + 1) j]
      have : i + 1 + j = i + (j + 1) := by omega
      rw [this]

theorem gapFillFrom_length (rows : List OhlcvRow) (l : List OhlcvRow) :
    ∀ i : Nat, (gapFillFrom rows i l).length = l.length := by
  induction l with
  | nil => intro i; simp [gapFillFrom]
  | cons r rest ih => intro i; simp [gapFillFrom, ih (i + 1)]

/-- The trades of the running example: one trade at 00:00:10 (price 105)
and one at 00:03:00 (price 100), so minutes 1 and 2 are empty buckets. -/
def exTrades : List Trade := [⟨10000, 105, 1⟩, ⟨180000, 100, 2⟩]

theorem exTrades_raw :
    okxRawRows exTrades =
      [⟨0, some 105, some 105, some 105, some 105, 1⟩,
       ⟨1, none, none, none, none, 0⟩,
       ⟨2, none, none, none, none, 0⟩,
       ⟨3, some 100, some 100, some 100, some 100, 2⟩] := by
  have hmins : resampleMinutes exTrades = [0, 1, 2, 3] := by decide
  have hb0 : bucketTrades exTrades 0 = [⟨10000, 105, 1⟩] := by decide
  have hb1 : bucketTrades exTrades 1 = [] := by decide
  have hb2 : bucketTrades exTrades 2 = [] := by decide
  have hb3 : bucketTrades exTrades 3 = [⟨180000, 100, 2⟩] := by decide
  rw [okxRawRows, hmins]
  norm_num [rawBucket, hb0, hb1, hb2, hb3, List.max?, List.min?]

theorem exTrades_kline :
    okxKline exTrades =
      [⟨0, some 105, some 105, some 105, some 105, 1⟩,
       ⟨1, some 105, some 105, some 105, some 105, 0⟩,
       ⟨2, none, none, none, none, 0⟩,
       ⟨3, some 100, some 100, some 100, some 100, 2⟩] := by
  rw [okxKline, exTrades_raw]
  decide

/-- Claim C6, counterexample: in `exTrades` the buckets of minutes 1 and 2
are both empty (volume 0) and bucket 2 is not the first of the day, yet
its OHLC are all `NaN` rather than the previous bucket's close: the
single vectorised `shift(1)` does not propagate through consecutive empty
buckets (the previous bucket's close, after filling, is 105). -/
theorem c6_counterexample :
    ((okxKline exTrades)[2]?).map (fun r => r.volume) = some 0 ∧
    ((okxKline exTrades)[1]?).map (fun r => r.close) = some (some 105) ∧
    ((okxKline exTrades)[2]?).map (fun r => r.close) = some none := by
  rw [exTrades_kline]
  exact ⟨rfl, rfl, rfl⟩

/-- Claim C6 (amended): every zero-volume bucket has volume exactly 0 and
gets, for all four OHLC fields, the close of the *pre-fill* previous
bucket: the previous bucket's last trade price when that bucket had
trades, and undefined (`NaN`) when the previous bucket was itself empty
or when the bucket is the first of the frame — the fill is a single
unpropagated shift, not a forward fill. -/
theorem c6_gap_fill_shift (trades : List Trade) (i : Nat) (r : OhlcvRow)
    (hr : (okxRawRows trades)[i]? = some r) (hv : r.volume = 0) :
    (okxKline trades)[i]? =
      some { minute := r.minute
             opn := prevRawClose (okxRawRows trades) i
             high := prevRawClose (okxRawRows trades) i
             low := prevRawClose (okxRawRows trades) i
             close := prevRawClose (okxRawRows trades) i
             volume := 0 } := by
  rw [okxKline, gapFill, gapFillFrom_getElem?, hr]
  simp [fillRow, hv]

/-- Witness for `c6_gap_fill_shift`: minute 1 of the running example is an
empty bucket directly after a traded bucket, so it is filled flat at the
previous close 105. -/
theorem c6_gap_fill_shift_witness :
    (okxKline exTrades)[1]? = some ⟨1, some 105, some 105, some 105, some 105, 0⟩ := by
  have hpc : prevRawClose (okxRawRows exTrades) 1 = some 105 := by
    rw [prevRawClose, exTrades_raw]
    rfl
  have h := c6_gap_fill_shift exTrades 1 ⟨1, none, none, none, none, 0⟩
    (by rw [exTrades_raw]; rfl) rfl
  rw [h, hpc]

/-- The smallest minute bucket of the resampled index. -/
def minMinute (trades : List Trade) : Nat := ((trades.map minuteOf).min?).getD 0

/-- The largest minute bucket of the resampled index. -/
def maxMinute (trades : List Trade) : Nat := ((trades.map minuteOf).max?).getD 0

/-- Claim C7, counterexample: `exTrades` is a non-empty trade artifact whose
kline output has 4 rows, not 1440: `resample("1min")` spans only from the
first to the last trade's minute, not the requested date's 24 hours. -/
theorem c7_counterexample :
    exTrades ≠ [] ∧ (okxKline exTrades).length = 4 ∧
    (okxKline exTrades).length ≠ 1440 := by
  refine ⟨by decide, ?_, ?_⟩ <;> rw [exTrades_kline] <;> decide

/-- Claim C7 (amended): for a non-empty trade artifact the aggregator
produces one bucket per minute spanning only the closed interval from the
minute of the earliest trade to the minute of the latest trade, i.e.
`maxMinute - minMinute + 1` rows; this equals 1440 only when the first
and last trades fall in the first and last minute of the day. -/
theorem c7_bucket_span (trades : List Trade) (h : trades ≠ []) :
    (okxKline trades).length = maxMinute trades - minMinute trades + 1 := by
  obtain ⟨t, ts, rfl⟩ := List.exists_cons_of_ne_nil h
  have hmin : ((t :: ts).map minuteOf).min? =
      some (List.foldl min (minuteOf t) (ts.map minuteOf)) := by
    simp [List.min?]
  have hmax : ((t :: ts).map minuteOf).max? =
      some (List.foldl max (minuteOf t) (ts.map minuteOf)) := by
    simp [List.max?]
  have hlen : (resampleMinutes (t :: ts)).length =
      List.foldl max (minuteOf t) (ts.map minuteOf)
        - List.foldl min (minuteOf t) (ts.map minuteOf) + 1 := by
    rw [resampleMinutes, hmin, hmax]
    simp
  rw [okxKline, gapFill, gapFillFrom_length, okxRawRows, List.length_map, hlen,
    minMinute, maxMinute, hmin, hmax]
  simp

/-- Witness for `c7_bucket_span` on the running example. -/
theorem c7_bucket_span_witness :
    (okxKline exTrades).length = maxMinute exTrades - minMinute exTrades + 1 :=
  c7_bucket_span exTrades (by decide)

/-! ## `_aggregate_symbol_kline` as a caller of the fetcher

The aggregator first awaits `_async_download_symbol_data` for the
`aggtrades` kind.  A `None` return (the 404 signal) makes it log and
return with no kline produced; an exception from the fetcher propagates;
otherwise the kline artifact is derived (via `okxKline` on the rows read
from the parquet artifact, supplied here by the oracle `readTrades`) and
written unless it already exists. -/

structure KlineResult where
  outcome : DownloadOutcome
  fs : List String
  writes : List String
  rows : List OhlcvRow
deriving DecidableEq

def aggregateSymbolKline (saveDir symbol : String) (date : DateT)
    (statuses : Nat → Nat) (readTrades : String → List Trade)
    (fs : List String) : KlineResult :=
  let r := asyncDownloadSymbolData saveDir symbol "aggtrades" date statuses fs
  match r.outcome with
  | DownloadOutcome.retryError e =>
    { outcome := DownloadOutcome.retryError e, fs := r.fs, writes := r.writes, rows := [] }
  | DownloadOutcome.ok none =>
    { outcome := DownloadOutcome.ok none, fs := r.fs, writes := r.writes, rows := [] }
  | DownloadOutcome.ok (some p) =>
    let savePath := strReplace p "aggtrades" "klines"
    if savePath ∈ r.fs then
      { outcome := DownloadOutcome.ok none, fs := r.fs, writes := r.writes, rows := [] }
    else
      { outcome := DownloadOutcome.ok (some savePath)
        fs := savePath :: r.fs
        writes := r.writes ++ [savePath]
        rows := okxKline (readTrades p) }

/-- Claim C5: a fetch answered 404 returns the terminal `None` signal after
a single attempt (one request, no retries, not `RetryError`, no raised
error), and the dependent candle aggregator receiving that signal
terminates cleanly: no kline rows are computed, nothing is written, and
the filesystem is unchanged. -/
theorem c5_not_found (saveDir symbol : String) (date : DateT)
    (statuses : Nat → Nat) (readTrades : String → List Trade) (fs : List String)
    (hfs : parquetPathOf saveDir symbol "aggtrades" date ∉ fs)
    (h404 : statuses 1 = 404) :
    asyncDownloadSymbolData saveDir symbol "aggtrades" date statuses fs =
      { outcome := DownloadOutcome.ok none, fs := fs, requests := 1, attempts := 1
        writes := [], waits := [] } ∧
    aggregateSymbolKline saveDir symbol date statuses readTrades fs =
      { outcome := DownloadOutcome.ok none, fs := fs, writes := [], rows := [] } := by
  have hbody : asyncDownloadAttempt saveDir symbol "aggtrades" date (statuses 1) fs =
      { value := Except.ok none, fs := fs, requests := 1, writes := [] } := by
    rw [h404]
    simp [asyncDownloadAttempt, hfs]
  have hrun : asyncDownloadSymbolData saveDir symbol "aggtrades" date statuses fs =
      { outcome := DownloadOutcome.ok none, fs := fs, requests := 1, attempts := 1
        writes := [], waits := [] } := by
    simp [asyncDownloadSymbolData, runAttempts, hbody]
  exact ⟨hrun, by simp [aggregateSymbolKline, hrun]⟩

/-- Witness for `c5_not_found`: the archive answers 404 immediately. -/
theorem c5_not_found_witness :
    asyncDownloadSymbolData "./data/spot" "BTC-USDT" "aggtrades" ⟨2024, 1, 2⟩
        (fun _ => 404) [] =
      { outcome := DownloadOutcome.ok none, fs := [], requests := 1, attempts := 1
        writes := [], waits := [] } ∧
    aggregateSymbolKline "./data/spot" "BTC-USDT" ⟨2024, 1, 2⟩
        (fun _ => 404) (fun _ => []) [] =
      { outcome := DownloadOutcome.ok none, fs := [], writes := [], rows := [] } :=
  c5_not_found "./data/spot" "BTC-USDT" ⟨2024, 1, 2⟩ (fun _ => 404) (fun _ => []) []
    (by decide) rfl

/-! ## Write atomicity: the converter's file operations at chunk level

The success path of `_async_download_symbol_data` (dump.py lines
200-262) performs, in order: `open(zip_path, "wb")` and a loop of chunk
writes (or a single full write — same trace shape), then
`df.to_parquet(parquet_path)` which opens the *final* artifact path
directly and writes the converted bytes into it, then
`os.remove(zip_path)`.  There is no write-to-temporary-then-rename step
anywhere, although the op language below has `rename` so that its
absence is expressible.  File contents are lists of chunks; an
interrupted execution is a prefix of the op trace. -/

inductive FsOp where
  | create (path : String)
  | chunk (path : String) (c : List Nat)
  | remove (path : String)
  | rename (src dst : String)
deriving DecidableEq

abbrev Content := List (List Nat)

def cfsGet (fs : List (String × Content)) (p : String) : Option Content :=
  (fs.find? (fun e => e.1 == p)).map (fun e => e.2)

def cfsSet (fs : List (String × Content)) (p : String) (v : Content) :
    List (String × Content) :=
  (p, v) :: fs.filter (fun e => e.1 != p)

def applyOp (fs : List (String × Content)) : FsOp → List (String × Content)
  | FsOp.create p => cfsSet fs p []
  | FsOp.chunk p c => cfsSet fs p ((cfsGet fs p).getD [] ++ [c])
  | FsOp.remove p => fs.filter (fun e => e.1 != p)
  | FsOp.rename src dst =>
    match cfsGet fs src with
    | none => fs
    | some v => cfsSet (fs.filter (fun e => e.1 != src)) dst v

def runOps (ops : List FsOp) (fs : List (String × Content)) :
    List (String × Content) :=
  ops.foldl applyOp fs

/-- The file-operation trace of one successful download-and-convert, with
`raw` the zip chunks streamed from the response and `converted` the
parquet bytes produced by the converter. -/
def convertWriteOps (zipPath parquetPath : String) (raw converted : Content) :
    List FsOp :=
  FsOp.create zipPath :: raw.map (FsOp.chunk zipPath)
    ++ FsOp.create parquetPath :: converted.map (FsOp.chunk parquetPath)
    ++ [FsOp.remove zipPath]

theorem cfsGet_set_self (fs : List (String × Content)) (p : String) (v : Content) :
    cfsGet (cfsSet fs p v) p = some v := by
  simp [cfsGet, cfsSet]

/-- Claim C1, counterexample: interrupting the conversion of a two-chunk
artifact right after its first chunk has been written leaves, at the
final artifact path, the truncated content `[[1]]` — neither the prior
state of that path (absent) nor the complete artifact `[[1], [2]]`:
`to_parquet` opens the final path directly, with no temporary name and
no move-into-place. -/
theorem c1_counterexample :
    cfsGet (runOps ((convertWriteOps "x.zip" "x.parquet" [[0]] [[1], [2]]).take 4) [])
        "x.parquet" = some [[1]] ∧
    cfsGet ([] : List (String × Content)) "x.parquet" = none ∧
    ([[1]] : Content) ≠ [[1], [2]] :=
  ⟨by decide, rfl, by decide⟩

/-- Claim C1 (amended): the raw zip is downloaded to a distinct path and
removed after conversion, but the converted artifact itself is written
*directly* at its final path: the conversion trace contains no rename
(move-into-place) step, and whenever the artifact has at least two
chunks there is an interruption point — a prefix of the trace — after
which the final path holds a non-empty content that is not the complete
artifact. -/
theorem c1_direct_write (zipPath parquetPath : String) (raw converted : Content)
    (hlen : 2 ≤ converted.length) :
    (∀ s d, FsOp.rename s d ∉ convertWriteOps zipPath parquetPath raw converted) ∧
    (∃ done rest mid,
      convertWriteOps zipPath parquetPath raw converted = done ++ rest ∧
      cfsGet (runOps done []) parquetPath = some mid ∧
      mid ≠ [] ∧ mid ≠ converted) := by
  constructor
  · intro s d hmem
    simp [convertWriteOps] at hmem
  · rcases converted with _ | ⟨c1, _ | ⟨c2, cs⟩⟩
    · simp at hlen
    · simp at hlen
    · refine ⟨FsOp.create zipPath :: (raw.map (FsOp.chunk zipPath)
          ++ [FsOp.create parquetPath, FsOp.chunk parquetPath c1]),
        FsOp.chunk parquetPath c2 :: (cs.map (FsOp.chunk parquetPath)
          ++ [FsOp.remove zipPath]),
        [c1], ?_, ?_, by simp, by simp⟩
      · simp [convertWriteOps]
      · simp only [runOps, List.foldl_cons, List.foldl_append, List.foldl_nil]
        simp [applyOp, cfsGet_set_self]

/-- Witness for `c1_direct_write` on a concrete two-chunk artifact. -/
theorem c1_direct_write_witness :
    (∀ s d, FsOp.rename s d ∉ convertWriteOps "x.zip" "x.parquet" [[0]] [[1], [2]]) ∧
    (∃ done rest mid,
      convertWriteOps "x.zip" "x.parquet" [[0]] [[1], [2]] = done ++ rest ∧
      cfsGet (runOps done []) "x.parquet" = some mid ∧
      mid ≠ [] ∧ mid ≠ [[1], [2]]) :=
  c1_direct_write "x.zip" "x.parquet" [[0]] [[1], [2]] (by decide)

/-! ## Work-unit enumeration: `_dump_symbol_data` date handling

Calendar dates are abstracted as integer day numbers (the order and the
`+= timedelta(days=1)` step are all the source uses).  For a data-kind
other than `swaprate-all` and a known symbol, the source (dump.py lines
313-337) defaults missing bounds from the symbol's validity window,
returns early when the requested start exceeds the requested end, clips
the bounds to the validity window, and then enumerates one date per day
of the resulting closed interval. -/

/-- The `while start_date <= end_date` accumulation loop. -/
def dateListLoop (s e : Int) : List Int :=
  if h : s ≤ e then s :: dateListLoop (s + 1) e else []
termination_by (e + 1 - s).toNat
decreasing_by simp_wf; omega

/-- Date enumeration of `_dump_symbol_data` for one symbol with validity
window `[vStart, vEnd]`: defaulting, the early `start_date > end_date`
return, clipping, and the day loop. -/
def dumpSymbolDates (vStart vEnd : Int) (startDate endDate : Option Int) : List Int :=
  let s0 := startDate.getD vStart
  let e0 := endDate.getD vEnd
  if e0 < s0 then []
  else
    dateListLoop (if s0 < vStart then vStart else s0) (if vEnd < e0 then vEnd else e0)

theorem mem_dateListLoop (d : Int) : ∀ s e : Int, d ∈ dateListLoop s e ↔ s ≤ d ∧ d ≤ e := by
  intro s e
  rw [dateListLoop]
  split
  · next hle =>
    rw [List.mem_cons, mem_dateListLoop d (s + 1) e]
    omega
  · next hle =>
    simp only [List.not_mem_nil, false_iff]
    omega
termination_by s e => (e + 1 - s).toNat
decreasing_by simp_wf; omega

/-- Claim C9: the dates enumerated for explicit request bounds `[s, e]` are
exactly the days in the intersection of the requested range with the
symbol's validity window `[vS, vE]` — the range is clipped before work
units are generated — and a request fully disjoint from the validity
window (or empty) yields zero work units (with no error: the enumeration
is total). -/
theorem c9_date_clipping (vS vE s e : Int) :
    (∀ d : Int, d ∈ dumpSymbolDates vS vE (some s) (some e) ↔
      (s ≤ d ∧ d ≤ e ∧ vS ≤ d ∧ d ≤ vE)) ∧
    ((e < s ∨ e < vS ∨ vE < s) → dumpSymbolDates vS vE (some s) (some e) = []) := by
  have hmem : ∀ d : Int, d ∈ dumpSymbolDates vS vE (some s) (some e) ↔
      (s ≤ d ∧ d ≤ e ∧ vS ≤ d ∧ d ≤ vE) := by
    intro d
    rw [dumpSymbolDates]
    simp only [Option.getD_some]
    split
    · next hlt =>
      simp only [List.not_mem_nil, false_iff]
      omega
    · next hlt =>
      rw [mem_dateListLoop]
      split_ifs <;> omega
  refine ⟨hmem, fun hdisj => ?_⟩
  rw [List.eq_nil_iff_forall_not_mem]
  intro d hd
  rw [hmem d] at hd
  omega

/-- Witness for `c9_date_clipping`: a request strictly after the validity
window produces zero work units. -/
theorem c9_date_clipping_witness :
    dumpSymbolDates 0 10 (some 20) (some 25) = [] :=
  (c9_date_clipping 0 10 20 25).2 (by omega)

/-! ## Catalog mapping: `get_exchange_info`

One entry of the catalog response's `data["datasets"]["symbols"]` list,
with the ISO `availableSince`/`availableTo` strings abstracted as
already-parsed integer day numbers (the parse in the source is
`strptime` followed by `.date()`; only the resulting dates are used).
The source iterates over `data["datasets"]["symbols"][1:]` — the list
*minus its first entry* — building a dict keyed by symbol id, clipping
each validity window to the global `[start, end]` bounds and filtering
by quote currency. -/

structure CatalogSymbol where
  id : String
  availableSince : Int
  availableTo : Int
deriving DecidableEq

structure SymbolInfo where
  id : String
  start_date : Int
  end_date : Int
  base : String
  quote : String
deriving DecidableEq

/-- The per-symbol dict built in the loop body (dump.py lines 101-139):
clipped window, and base/quote split from the id (`[0]`/`[-1]` for spot,
`[0]`/`[1]` for swap and future; Python's `split` never returns an empty
list, and the `[1]` access is modelled totally with a `""` default). -/
def mkSymbolInfo (assetType : String) (start finish : Int) (s : CatalogSymbol) :
    SymbolInfo :=
  { id := s.id
    start_date := if s.availableSince < start then start else s.availableSince
    end_date := if finish < s.availableTo then finish else s.availableTo
    base := (s.id.splitOn "-").headD ""
    quote := if assetType = "spot" then (s.id.splitOn "-").getLastD ""
             else ((s.id.splitOn "-")[1]?).getD "" }

/-- Python dict insertion: replace in place when the key exists, append
otherwise. -/
def dictInsert (info : List (String × SymbolInfo)) (k : String) (v : SymbolInfo) :
    List (String × SymbolInfo) :=
  if info.any (fun e => e.1 == k) then
    info.map (fun e => if e.1 == k then (k, v) else e)
  else info ++ [(k, v)]

/-- One iteration of the `for symbol in data["datasets"]["symbols"][1:]`
loop: build the info dict entry and keep it when the quote-currency
filter passes. -/
def infoStep (assetType : String) (start finish : Int) (q : Option String)
    (info : List (String × SymbolInfo)) (s : CatalogSymbol) :
    List (String × SymbolInfo) :=
  let si := mkSymbolInfo assetType start finish s
  if q = none ∨ q = some si.quote then dictInsert info si.id si else info

/-- `get_exchange_info`: the mapping is accumulated over the catalog
symbol list *with its first entry dropped*. -/
def getExchangeInfo (assetType : String) (start finish : Int) (q : Option String)
    (symbols : List CatalogSymbol) : List (String × SymbolInfo) :=
  (symbols.drop 1).foldl (infoStep assetType start finish q) []

/-- The keys of the symbol mapping. -/
def infoKeys (info : List (String × SymbolInfo)) : List String :=
  info.map (fun e => e.1)

theorem mem_infoKeys_dictInsert (info : List (String × SymbolInfo)) (k x : String)
    (v : SymbolInfo) (hx : x ∈ infoKeys (dictInsert info k v)) :
    x ∈ infoKeys info ∨ x = k := by
  rw [dictInsert] at hx
  split at hx
  · rw [infoKeys, List.map_map] at hx
    obtain ⟨e, he, hex⟩ := List.mem_map.mp hx
    by_cases hek : e.1 = k
    · right
      simp only [Function.comp, hek, beq_self_eq_true, if_true] at hex
      exact hex.symm
    · left
      have hb : (e.1 == k) = false := by simp [hek]
      simp only [Function.comp, hb, Bool.false_eq_true, if_false] at hex
      exact hex ▸ List.mem_map_of_mem (fun e => e.1) he
  · rw [infoKeys, List.map_append] at hx
    rcases List.mem_append.mp hx with h | h
    · exact Or.inl h
    · right
      simpa using h

theorem infoKeys_foldl (assetType : String) (start finish : Int) (q : Option String) :
    ∀ (l : List CatalogSymbol) (acc : List (String × SymbolInfo)) (x : String),
      x ∈ infoKeys (l.foldl (infoStep assetType start finish q) acc) →
      x ∈ infoKeys acc ∨ x ∈ l.map (fun s => s.id) := by
  intro l
  induction l with
  | nil => intro acc x hx; exact Or.inl hx
  | cons s l ih =>
    intro acc x hx
    rw [List.foldl_cons] at hx
    rcases ih (infoStep assetType start finish q acc s) x hx with h | h
    · simp only [infoStep] at h
      split at h
      · rcases mem_infoKeys_dictInsert acc _ x _ h with h2 | h2
        · exact Or.inl h2
        · right
          rw [List.map_cons, List.mem_cons]
          exact Or.inl h2
      · exact Or.inl h
    · right
      rw [List.map_cons, List.mem_cons]
      exact Or.inr h

/-- Claim C10: the symbol mapping of `get_exchange_info` is built only
from the catalog entries after the first (`symbols[1:]`): every key of
the mapping is the id of an entry other than the first, so unless the
first entry's id recurs later in the list it is never available as a
work-unit key. -/
theorem c10_first_symbol_excluded (assetType : String) (start finish : Int)
    (q : Option String) (symbols : List CatalogSymbol) :
    (∀ x, x ∈ infoKeys (getExchangeInfo assetType start finish q symbols) →
      x ∈ (symbols.drop 1).map (fun s => s.id)) ∧
    (∀ s0 rest, symbols = s0 :: rest → s0.id ∉ rest.map (fun s => s.id) →
      s0.id ∉ infoKeys (getExchangeInfo assetType start finish q symbols)) := by
  have hmain : ∀ x, x ∈ infoKeys (getExchangeInfo assetType start finish q symbols) →
      x ∈ (symbols.drop 1).map (fun s => s.id) := by
    intro x hx
    rcases infoKeys_foldl assetType start finish q (symbols.drop 1) [] x hx with h | h
    · simp [infoKeys] at h
    · exact h
  refine ⟨hmain, ?_⟩
  rintro s0 rest rfl hnot hmem
  exact hnot (by simpa using hmain _ hmem)

/-- Witness for `c10_first_symbol_excluded`: with a two-entry catalog the
first entry's id is not a key of the resulting mapping. -/
theorem c10_first_symbol_excluded_witness :
    ("AAA-USDT" : String) ∉ infoKeys (getExchangeInfo "spot" 0 100 none
      [⟨"AAA-USDT", 0, 50⟩, ⟨"BBB-USDT", 0, 50⟩]) :=
  (c10_first_symbol_excluded "spot" 0 100 none
      [⟨"AAA-USDT", 0, 50⟩, ⟨"BBB-USDT", 0, 50⟩]).2
    ⟨"AAA-USDT", 0, 50⟩ [⟨"BBB-USDT", 0, 50⟩] rfl (by decide)
